import Mathlib

set_option autoImplicit false

/-!
Shallow embedding of the github-repo-scraper ETL program (src/main.py and
src/db_init.py). Tables are lists of row structures; the SQL upsert
statements are translated clause by clause; SQLite's default LIKE operator
(ASCII case-insensitive, with the wildcards % and _) is modelled by
`likeMatch`; Python exceptions (TypeError from `int(None)`) are modelled by
`Except`.
-/

namespace Scraper

/-! Row types, translated from the CREATE TABLE statements in src/db_init.py.
NULLable columns are `Option`; surrogate ids assigned by the store are `Nat`
counters threaded through the `DB` state. -/

structure AuthorRow where
  id : Nat
  login : String
  name : Option String
  deriving DecidableEq, Repr

structure PullRequestRow where
  id : Int
  author_id : Option Nat
  title : Option String
  state : Option String
  created_at : Option String
  closed_at : Option String
  merged_at : Option String
  additions : Int
  deletions : Int
  author_association : Option String
  head_repository_url : Option String
  is_cross_repository : Int
  merge_commit_ci_state : Option String
  api_total_comments_count : Option Int
  deriving DecidableEq, Repr

structure CommitRow where
  pull_request_id : Option Int
  url : Option String
  committed_at : Option String
  deriving DecidableEq, Repr

structure ReviewRow where
  id : Int
  author_id : Option Nat
  pull_request_id : Option Int
  created_at : Option String
  deriving DecidableEq, Repr

structure ReviewThreadRow where
  id : Nat
  node_id : String
  pull_request_id : Option Int
  deriving DecidableEq, Repr

structure CommentRow where
  id : Int
  author_id : Option Nat
  pull_request_id : Option Int
  review_id : Option Int
  review_thread_id : Option Nat
  created_at : Option String
  deriving DecidableEq, Repr

structure FileRow where
  pull_request_id : Option Int
  path : Option String
  change_type : Option String
  additions : Option Int
  deletions : Option Int
  deriving DecidableEq, Repr

structure AuthorPullRequestRow where
  author_id : Nat
  pull_request_id : Int
  deriving DecidableEq, Repr

structure LabelRow where
  id : Nat
  name : String
  deriving DecidableEq, Repr

structure LabelPullRequestRow where
  label_id : Nat
  pull_request_id : Int
  deriving DecidableEq, Repr

/-- The whole store (the nine tables of db_init.py plus the next fresh
surrogate id for each table whose id the program reads back). -/
structure DB where
  authors : List AuthorRow
  pull_requests : List PullRequestRow
  commits : List CommitRow
  reviews : List ReviewRow
  review_threads : List ReviewThreadRow
  comments : List CommentRow
  files : List FileRow
  author_pull_request : List AuthorPullRequestRow
  labels : List LabelRow
  label_pull_request : List LabelPullRequestRow
  nextAuthorId : Nat
  nextThreadId : Nat
  nextLabelId : Nat
  deriving DecidableEq, Repr

def emptyDB : DB :=
  { authors := [], pull_requests := [], commits := [], reviews := [],
    review_threads := [], comments := [], files := [], author_pull_request := [],
    labels := [], label_pull_request := [],
    nextAuthorId := 1, nextThreadId := 1, nextLabelId := 1 }

/-! SQLite semantics helpers. -/

/-- ASCII lower-casing as applied by SQLite's default LIKE. -/
def asciiLower (c : Char) : Char :=
  if 'A' ≤ c ∧ c ≤ 'Z' then Char.ofNat (c.toNat + 32) else c

/-- Character lists equal up to ASCII letter case. -/
def asciiCaseEqL : List Char → List Char → Bool
  | [], [] => true
  | a :: as, b :: bs => (asciiLower a == asciiLower b) && asciiCaseEqL as bs
  | _, _ => false

/-- Strings equal up to ASCII letter case. -/
def asciiCaseEq (s t : String) : Bool :=
  asciiCaseEqL s.toList t.toList

/-- SQLite's default LIKE operator: `likeMatch pattern s` decides
`s LIKE pattern`. `%` matches any sequence of characters, `_` matches any
single character, and plain characters compare ASCII case-insensitively. -/
def likeMatch : List Char → List Char → Bool
  | [], s => s.isEmpty
  | p :: ps, s =>
    if p = '%' then
      s.tails.any (fun t => likeMatch ps t)
    else
      match s with
      | [] => false
      | c :: cs =>
        if p = '_' then likeMatch ps cs
        else (asciiLower p == asciiLower c) && likeMatch ps cs

/-- SQL equality as used by a UNIQUE index for conflict detection: two
values conflict only when both are non-NULL and equal (NULLs are distinct). -/
def sqlEq {α : Type} [DecidableEq α] (a b : Option α) : Bool :=
  match a, b with
  | some x, some y => decide (x = y)
  | _, _ => false

/-! The Entity Upsert Layer, translated from src/main.py. -/

/-- saveAuthor (src/main.py lines 197-206): insert into authors; on
conflict (login) do update set name = excluded.name where excluded.name is
not null. The UNIQUE(login) conflict uses SQLite's default BINARY collation,
so it is case-sensitive. -/
def saveAuthor (db : DB) (login : String) (name : Option String) : DB :=
  if db.authors.any (fun r => r.login == login) then
    { db with authors := db.authors.map (fun r =>
        if r.login == login then
          match name with
          | some n => { r with name := some n }
          | none => r
        else r) }
  else
    { db with
        authors := db.authors ++ [{ id := db.nextAuthorId, login := login, name := name }],
        nextAuthorId := db.nextAuthorId + 1 }

/-- Byte-order (memcmp) comparison of character lists; for UTF-8 encoded
text, codepoint-wise lexicographic order coincides with byte order, so
this is SQLite's BINARY collation order. -/
def charsLt : List Char → List Char → Bool
  | [], [] => false
  | [], _ :: _ => true
  | _ :: _, [] => false
  | a :: as, b :: bs => if a < b then true else if b < a then false else charsLt as bs

/-- Strings in SQLite BINARY collation order. -/
def strLtB (s t : String) : Bool :=
  charsLt s.toList t.toList

/-- The row a forward scan of a UNIQUE text index reaches first among a
candidate list: the one whose key is smallest in BINARY order (on equal
keys — impossible under the UNIQUE constraint — the earlier row). -/
def minByKey {α : Type} (key : α → String) (rows : List α) : Option α :=
  match rows with
  | [] => none
  | r :: rs => some (rs.foldl (fun acc x => if strLtB (key x) (key acc) then x else acc) r)

/-- getAuthorIDByLogin (src/main.py lines 229-231):
select id from authors where login like ? — the looked-up string is the
LIKE pattern. SQLite answers this query by scanning the covering UNIQUE
index on login in BINARY (byte) order, so fetchone returns the LIKE-match
whose login is smallest in byte order, not the first match in insertion
order. -/
def getAuthorIDByLogin (db : DB) (login : String) : Option Nat :=
  (minByKey (fun r => r.login)
    (db.authors.filter (fun r => likeMatch login.toList r.login.toList))).map (fun r => r.id)

/-- getLabelIDByName (src/main.py lines 430-432):
select id from labels where name like ? — answered by a BINARY-order scan
of the UNIQUE index on name, like getAuthorIDByLogin. -/
def getLabelIDByName (db : DB) (name : String) : Option Nat :=
  (minByKey (fun r => r.name)
    (db.labels.filter (fun r => likeMatch name.toList r.name.toList))).map (fun r => r.id)

/-- SQL coalesce on two arguments. -/
def coalesce {α : Type} (a b : Option α) : Option α :=
  match a with
  | some v => some v
  | none => b

/-- The per-row effect of the comments upsert in saveComments
(src/main.py lines 277-293): insert into comments; on conflict (id) do
update set each of the three parent-link columns to
coalesce(excluded.column, comments.column). author_id and created_at are
not touched on conflict. -/
def upsertComment (rows : List CommentRow) (c : CommentRow) : List CommentRow :=
  if rows.any (fun r => r.id == c.id) then
    rows.map (fun r =>
      if r.id == c.id then
        { r with
            pull_request_id := coalesce c.pull_request_id r.pull_request_id,
            review_id := coalesce c.review_id r.review_id,
            review_thread_id := coalesce c.review_thread_id r.review_thread_id }
      else r)
  else rows ++ [c]

/-! Input records, mirroring the GraphQL response shapes consumed by
src/main.py. Every field fetched with .get may be absent, hence Option.
`fullDatabaseId` is a numeric string in the API and is forced with
Python's int(); `some n` models a parseable value, `none` models NULL,
on which int(None) raises TypeError. -/

structure AuthorRecord where
  login : Option String
  name : Option String
  deriving DecidableEq, Repr

structure CommentRecord where
  fullDatabaseId : Option Int
  author : Option AuthorRecord
  createdAt : Option String
  deriving DecidableEq, Repr

structure ReviewRecord where
  fullDatabaseId : Option Int
  author : Option AuthorRecord
  createdAt : Option String
  comments : Option (List CommentRecord)
  deriving DecidableEq, Repr

structure ThreadRecord where
  id : String
  comments : Option (List CommentRecord)
  deriving DecidableEq, Repr

structure CommitInner where
  commitUrl : Option String
  committedDate : Option String
  deriving DecidableEq, Repr

structure CommitRecord where
  commit : Option CommitInner
  deriving DecidableEq, Repr

structure FileRecord where
  path : Option String
  changeType : Option String
  additions : Option Int
  deletions : Option Int
  deriving DecidableEq, Repr

/-- The body of the for-loop of saveComments (src/main.py lines 261-276):
resolve the optional author via `(comment.get("author") or {}).get("login")`
(saving the author and re-reading its id), then build the row tuple, where
`int(comment.get("fullDatabaseId"))` raises TypeError when the value is
NULL or absent. -/
def saveCommentsLoop (db : DB) (cs : List CommentRecord)
    (pull_request_id review_id : Option Int) (review_thread_id : Option Nat)
    (acc : List CommentRow) : Except String (DB × List CommentRow) :=
  match cs with
  | [] => Except.ok (db, acc)
  | c :: rest =>
    let author_login : Option String := (c.author.getD { login := none, name := none }).login
    let db1 : DB :=
      match author_login with
      | some l => saveAuthor db l none
      | none => db
    let author_id : Option Nat :=
      match author_login with
      | some l => getAuthorIDByLogin db1 l
      | none => none
    match c.fullDatabaseId with
    | none => Except.error "TypeError: int() argument cannot be NoneType (fullDatabaseId is null)"
    | some cid =>
      saveCommentsLoop db1 rest pull_request_id review_id review_thread_id
        (acc ++ [{ id := cid, author_id := author_id, pull_request_id := pull_request_id,
                   review_id := review_id, review_thread_id := review_thread_id,
                   created_at := c.createdAt }])

/-- Foreign-key validity of the three parent-link columns of a comments
row (db_init.py lines 82-84), checked with PRAGMA foreign_keys = ON
whenever these columns are inserted or assigned by the upsert's DO UPDATE:
each non-NULL link must reference an existing parent row. -/
def commentParentFkOk (db : DB) (c : CommentRow) : Bool :=
  (match c.pull_request_id with
   | none => true
   | some p => db.pull_requests.any (fun r => r.id == p))
  && (match c.review_id with
      | none => true
      | some v => db.reviews.any (fun r => r.id == v))
  && (match c.review_thread_id with
      | none => true
      | some t => db.review_threads.any (fun r => r.id == t))

/-- Foreign-key validity of a freshly inserted comments row: the author
link (db_init.py line 81) on top of the three parent links. -/
def commentFkOk (db : DB) (c : CommentRow) : Bool :=
  (match c.author_id with
   | none => true
   | some a => db.authors.any (fun r => r.id == a))
  && commentParentFkOk db c

/-- One row of the comments executemany with the schema's constraints
(db_init.py lines 72-86): a fresh insert enforces NOT NULL on created_at
and all four foreign keys; the conflict path assigns only the three
parent-link columns, so their merged values are re-checked against the
parent tables while created_at and author_id stay untouched. On success
the table change is exactly `upsertComment`. -/
def upsertCommentChecked (db : DB) (comments : List CommentRow) (c : CommentRow) :
    Except String (List CommentRow) :=
  match comments.find? (fun r => r.id == c.id) with
  | some r =>
    if commentParentFkOk db
        { r with
            pull_request_id := coalesce c.pull_request_id r.pull_request_id,
            review_id := coalesce c.review_id r.review_id,
            review_thread_id := coalesce c.review_thread_id r.review_thread_id } then
      Except.ok (upsertComment comments c)
    else Except.error "sqlite3.IntegrityError: FOREIGN KEY constraint failed"
  | none =>
    if c.created_at == none then
      Except.error "sqlite3.IntegrityError: NOT NULL constraint failed: comments.created_at"
    else if commentFkOk db c then
      Except.ok (upsertComment comments c)
    else Except.error "sqlite3.IntegrityError: FOREIGN KEY constraint failed"

/-- The executemany of saveComments: the prepared rows are applied in
order; the first constraint violation aborts the batch. -/
def applyCommentRows (db : DB) (comments : List CommentRow) :
    List CommentRow → Except String (List CommentRow)
  | [] => Except.ok comments
  | c :: rest =>
    match upsertCommentChecked db comments c with
    | Except.error e => Except.error e
    | Except.ok comments2 => applyCommentRows db comments2 rest

/-- saveComments (src/main.py lines 257-294): a None or empty list is a
no-op; otherwise the loop builds the rows (raising on a null
fullDatabaseId) and executemany applies the constraint-checked upsert row
by row. -/
def saveComments (db : DB) (comments : Option (List CommentRecord))
    (pull_request_id review_id : Option Int) (review_thread_id : Option Nat) :
    Except String DB :=
  match comments with
  | none => Except.ok db
  | some [] => Except.ok db
  | some cs =>
    match saveCommentsLoop db cs pull_request_id review_id review_thread_id [] with
    | Except.error e => Except.error e
    | Except.ok (db1, rows) =>
      match applyCommentRows db1 db1.comments rows with
      | Except.error e => Except.error e
      | Except.ok comments2 => Except.ok { db1 with comments := comments2 }

/-- Generic "insert ... on conflict ... do nothing": append unless some
existing row conflicts with the incoming one. -/
def insertIfNew {α : Type} (conflict : α → α → Bool) (rows : List α) (x : α) : List α :=
  if rows.any (fun r => conflict r x) then rows else rows ++ [x]

/-- Per-row effect of saveCommits (src/main.py lines 244-254): insert into
commits on conflict (pull_request_id, url) do nothing; the UNIQUE pair
treats NULLs as distinct, hence sqlEq. -/
def insertCommit : List CommitRow → CommitRow → List CommitRow :=
  insertIfNew (fun r c =>
    sqlEq r.pull_request_id c.pull_request_id && sqlEq r.url c.url)

/-- Per-row effect of the reviews insert (src/main.py lines 309-325):
insert into reviews on conflict (id) do nothing. -/
def insertReview : List ReviewRow → ReviewRow → List ReviewRow :=
  insertIfNew (fun r x => r.id == x.id)

/-- Per-row effect of saveFiles (src/main.py lines 366-378): insert into
files on conflict (pull_request_id, path) do nothing. -/
def insertFile : List FileRow → FileRow → List FileRow :=
  insertIfNew (fun r f =>
    sqlEq r.pull_request_id f.pull_request_id && sqlEq r.path f.path)

/-- Per-row effect of saveLabels (src/main.py lines 420-427): insert into
labels on conflict (name) do nothing. -/
def insertLabel : List LabelRow → LabelRow → List LabelRow :=
  insertIfNew (fun r l => r.name == l.name)

/-- Per-row effect of saveParticipants (src/main.py lines 401-408): insert
into author_pull_request on conflict (author_id, pull_request_id) do
nothing. -/
def insertAuthorPullRequest : List AuthorPullRequestRow → AuthorPullRequestRow → List AuthorPullRequestRow :=
  insertIfNew (fun r x => r.author_id == x.author_id && r.pull_request_id == x.pull_request_id)

/-- Per-row effect of linkLabelsWithPullRequest (src/main.py lines 454-461):
insert into label_pull_request on conflict (label_id, pull_request_id) do
nothing. -/
def insertLabelPullRequest : List LabelPullRequestRow → LabelPullRequestRow → List LabelPullRequestRow :=
  insertIfNew (fun r x => r.label_id == x.label_id && r.pull_request_id == x.pull_request_id)

/-- saveCommits (src/main.py lines 233-255). -/
def saveCommits (db : DB) (commits : Option (List CommitRecord)) (pull_request_id : Int) : DB :=
  match commits with
  | none => db
  | some [] => db
  | some cs =>
    let rows : List CommitRow := cs.map (fun c =>
      { pull_request_id := some pull_request_id,
        url := (c.commit.getD { commitUrl := none, committedDate := none }).commitUrl,
        committed_at := (c.commit.getD { commitUrl := none, committedDate := none }).committedDate })
    { db with commits := rows.foldl insertCommit db.commits }

/-- saveFiles (src/main.py lines 353-379). -/
def saveFiles (db : DB) (files : Option (List FileRecord)) (pull_request_id : Int) : DB :=
  match files with
  | none => db
  | some [] => db
  | some fs =>
    let rows : List FileRow := fs.map (fun f =>
      { pull_request_id := some pull_request_id, path := f.path,
        change_type := f.changeType, additions := f.additions, deletions := f.deletions })
    { db with files := rows.foldl insertFile db.files }

/-- The body of the loop of saveReviews (src/main.py lines 300-327):
`int(review.get("fullDatabaseId"))` is evaluated first (raising on NULL),
then the optional author is resolved, the review inserted (conflict =
no-op), and the review's nested comments saved with review_id set. -/
def saveReviewsLoop (db : DB) (rs : List ReviewRecord) (pull_request_id : Int) :
    Except String DB :=
  match rs with
  | [] => Except.ok db
  | rv :: rest =>
    match rv.fullDatabaseId with
    | none => Except.error "TypeError: int() argument cannot be NoneType (review fullDatabaseId is null)"
    | some review_id =>
      let author_login : Option String := (rv.author.getD { login := none, name := none }).login
      let db1 : DB :=
        match author_login with
        | some l => saveAuthor db l none
        | none => db
      let author_id : Option Nat :=
        match author_login with
        | some l => getAuthorIDByLogin db1 l
        | none => none
      let row : ReviewRow :=
        { id := review_id, author_id := author_id,
          pull_request_id := some pull_request_id, created_at := rv.createdAt }
      let db2 : DB := { db1 with reviews := insertReview db1.reviews row }
      match saveComments db2 rv.comments none (some review_id) none with
      | Except.error e => Except.error e
      | Except.ok db3 => saveReviewsLoop db3 rest pull_request_id

/-- saveReviews (src/main.py lines 296-327). -/
def saveReviews (db : DB) (reviews : Option (List ReviewRecord)) (pull_request_id : Int) :
    Except String DB :=
  match reviews with
  | none => Except.ok db
  | some [] => Except.ok db
  | some rs => saveReviewsLoop db rs pull_request_id

/-- The review_threads upsert of saveReviewThreads (src/main.py lines
336-349): insert into review_threads; on conflict (node_id) do update set
node_id = excluded.node_id returning id. On a fresh insert the new row's
id is returned; on conflict the existing row is trivially rewritten and
its id is returned. pull_request_id is not updated on conflict. -/
def insertReviewThread (db : DB) (node_id : String) (pull_request_id : Int) :
    DB × Option Nat :=
  if db.review_threads.any (fun r => r.node_id == node_id) then
    ({ db with review_threads := db.review_threads.map (fun r =>
         if r.node_id == node_id then { r with node_id := node_id } else r) },
     (db.review_threads.find? (fun r => r.node_id == node_id)).map (fun r => r.id))
  else
    ({ db with
         review_threads := db.review_threads ++
           [{ id := db.nextThreadId, node_id := node_id, pull_request_id := some pull_request_id }],
         nextThreadId := db.nextThreadId + 1 },
     some db.nextThreadId)

/-- The body of the loop of saveReviewThreads (src/main.py lines 333-351):
upsert the thread, fetch the returned id, and save the thread's comments
with review_thread_id set to that id. -/
def saveReviewThreadsLoop (db : DB) (ts : List ThreadRecord) (pull_request_id : Int) :
    Except String DB :=
  match ts with
  | [] => Except.ok db
  | t :: rest =>
    let step := insertReviewThread db t.id pull_request_id
    match saveComments step.1 t.comments none none step.2 with
    | Except.error e => Except.error e
    | Except.ok db2 => saveReviewThreadsLoop db2 rest pull_request_id

/-- saveReviewThreads (src/main.py lines 329-351). -/
def saveReviewThreads (db : DB) (threads : Option (List ThreadRecord)) (pull_request_id : Int) :
    Except String DB :=
  match threads with
  | none => Except.ok db
  | some [] => Except.ok db
  | some ts => saveReviewThreadsLoop db ts pull_request_id

/-- The per-row effect of the pull_requests upsert in savePullRequests
(src/main.py lines 477-526): insert into pull_requests; on conflict (id)
do update set every non-key column unconditionally from excluded. -/
def upsertPullRequest (rows : List PullRequestRow) (p : PullRequestRow) : List PullRequestRow :=
  if rows.any (fun r => r.id == p.id) then
    rows.map (fun r =>
      if r.id == p.id then
        { r with
            author_id := p.author_id,
            title := p.title,
            state := p.state,
            created_at := p.created_at,
            closed_at := p.closed_at,
            merged_at := p.merged_at,
            additions := p.additions,
            deletions := p.deletions,
            author_association := p.author_association,
            head_repository_url := p.head_repository_url,
            is_cross_repository := p.is_cross_repository,
            merge_commit_ci_state := p.merge_commit_ci_state,
            api_total_comments_count := p.api_total_comments_count }
      else r)
  else rows ++ [p]

/-! The Schema Store deletion policy, translated from the foreign-key
clauses of the CREATE TABLE statements in src/db_init.py (with
PRAGMA foreign_keys = ON). -/

/-- Deleting an authors row: pull_requests, reviews and comments declare
`references authors(id) on delete set null`; author_pull_request declares
`on delete cascade`. -/
def deleteAuthor (db : DB) (aid : Nat) : DB :=
  { db with
      authors := db.authors.filter (fun r => !(r.id == aid)),
      pull_requests := db.pull_requests.map (fun r =>
        if r.author_id == some aid then { r with author_id := none } else r),
      reviews := db.reviews.map (fun r =>
        if r.author_id == some aid then { r with author_id := none } else r),
      comments := db.comments.map (fun r =>
        if r.author_id == some aid then { r with author_id := none } else r),
      author_pull_request := db.author_pull_request.filter (fun r => !(r.author_id == aid)) }

/-- Deleting a pull_requests row: commits, reviews, review_threads and
comments declare `references pull_requests(id) on delete set null`; files,
author_pull_request and label_pull_request declare `on delete cascade`. -/
def deletePullRequest (db : DB) (pid : Int) : DB :=
  { db with
      pull_requests := db.pull_requests.filter (fun r => !(r.id == pid)),
      commits := db.commits.map (fun r =>
        if r.pull_request_id == some pid then { r with pull_request_id := none } else r),
      reviews := db.reviews.map (fun r =>
        if r.pull_request_id == some pid then { r with pull_request_id := none } else r),
      review_threads := db.review_threads.map (fun r =>
        if r.pull_request_id == some pid then { r with pull_request_id := none } else r),
      comments := db.comments.map (fun r =>
        if r.pull_request_id == some pid then { r with pull_request_id := none } else r),
      files := db.files.filter (fun r => !(r.pull_request_id == some pid)),
      author_pull_request := db.author_pull_request.filter (fun r => !(r.pull_request_id == pid)),
      label_pull_request := db.label_pull_request.filter (fun r => !(r.pull_request_id == pid)) }

/-! The Rate Governor and credential rotation of the main loop
(src/main.py lines 541-604), with a simulated real-valued clock. -/

def COST_PER_MINUTE : Int := 1900

/-- The governor's mutable state: the cumulative reported cost and the
start of the current 60-second window (a point on the simulated clock). -/
structure GovState where
  current_cost : Int
  start : ℚ
  deriving DecidableEq, Repr

/-- The cooldown check at the top of each loop iteration (src/main.py
lines 559-566): if the accumulated cost has reached the budget, sleep for
the remainder of the 60-second window (if any remains), then reset the
cost counter and the window start. Returns the slept duration and the new
state; the next request is issued at time `now + slept`. -/
def cooldownStep (g : GovState) (now : ℚ) : ℚ × GovState :=
  if COST_PER_MINUTE ≤ g.current_cost then
    let cooldown : ℚ := 60 - (now - g.start)
    let slept : ℚ := if 0 < cooldown then cooldown else 0
    (slept, { current_cost := 0, start := now + slept })
  else (0, g)

/-- Substring test, modelling Python's `in` on str. -/
def strContainsSub (hay needle : String) : Bool :=
  hay.toList.tails.any (fun t => needle.toList.isPrefixOf t)

/-- The error classification of the except branch (src/main.py line 597):
an error is authorization/rate-limit class when its message contains
"rate limit exceeded" or "Unauthorized". -/
def isAuthClassError (err : String) : Bool :=
  strContainsSub err "rate limit exceeded" || strContainsSub err "Unauthorized"

/-- The driver state relevant to credential rotation: the current token
index into the pool, the pool size, the page cursor, and whether the
process has terminated. -/
structure DriverState where
  current_token_idx : Nat
  pool_size : Nat
  next_page_after : Option String
  terminated : Bool
  deriving DecidableEq, Repr

/-- The except TransportServerError branch of the main loop (src/main.py
lines 595-604): a non-auth-class error terminates at once; otherwise the
token index advances and, if it now reaches the pool size, the process
terminates; the page cursor is left untouched, so a surviving loop retries
the same page with the next credential. -/
def handleTransportServerError (s : DriverState) (err : String) : DriverState :=
  if !(isAuthClassError err) then
    { s with terminated := true }
  else
    let idx := s.current_token_idx + 1
    if s.pool_size ≤ idx then { s with current_token_idx := idx, terminated := true }
    else { s with current_token_idx := idx }

/-! Helper lemmas. -/

theorem sqlEq_symm {α : Type} [DecidableEq α] {a b : Option α}
    (h : sqlEq a b = true) : sqlEq b a = true := by
  cases a <;> cases b <;> simp_all [sqlEq]

theorem sqlEq_trans_right {α : Type} [DecidableEq α] {a b c : Option α}
    (h1 : sqlEq a b = true) (h2 : sqlEq c b = true) : sqlEq a c = true := by
  cases a <;> cases b <;> cases c <;> simp_all [sqlEq]

theorem insertIfNew_second_noop {α : Type} (conflict : α → α → Bool)
    (rows : List α) (x y : α)
    (hxy : conflict x y = true)
    (hmono : ∀ r, conflict r x = true → conflict r y = true) :
    insertIfNew conflict (insertIfNew conflict rows x) y = insertIfNew conflict rows x := by
  unfold insertIfNew
  by_cases h : rows.any (fun r => conflict r x) = true
  · obtain ⟨r, hr, hcr⟩ := List.any_eq_true.mp h
    rw [if_pos h, if_pos (List.any_eq_true.mpr ⟨r, hr, hmono r hcr⟩)]
  · rw [if_neg h,
      if_pos (List.any_eq_true.mpr ⟨x, List.mem_append_right rows (List.mem_singleton.mpr rfl), hxy⟩)]

/-! Claim theorems. -/

/-- C1: Comment save is an additive parent-link merge: when a record with
the id of an already stored comment is saved again, the stored row (one
row, no new row is added) carries, for each of the three parent-link
columns, coalesce(incoming, existing); coalesce takes the incoming value
when it is non-null, keeps the existing value when the incoming value is
null, and never turns a non-null existing value into null. -/
theorem comment_save_merges_parent_links
    (rows : List CommentRow) (r c : CommentRow)
    (hmem : r ∈ rows) (hid : c.id = r.id) :
    ({ r with
        pull_request_id := coalesce c.pull_request_id r.pull_request_id,
        review_id := coalesce c.review_id r.review_id,
        review_thread_id := coalesce c.review_thread_id r.review_thread_id } ∈ upsertComment rows c)
    ∧ (upsertComment rows c).length = rows.length
    ∧ (∀ (α : Type) (a b : Option α) (v : α), a = some v → coalesce a b = some v)
    ∧ (∀ (α : Type) (a b : Option α), a = none → coalesce a b = b)
    ∧ (∀ (α : Type) (a b : Option α), b ≠ none → coalesce a b ≠ none) := by
  have hb : rows.any (fun x => x.id == c.id) = true :=
    List.any_eq_true.mpr ⟨r, hmem, by simp [hid]⟩
  refine ⟨?_, ?_, ?_, ?_, ?_⟩
  · unfold upsertComment
    rw [if_pos hb]
    exact List.mem_map.mpr ⟨r, hmem, by simp [hid]⟩
  · simp [upsertComment, hb]
  · intro α a b v hv
    simp [coalesce, hv]
  · intro α a b ha
    simp [coalesce, ha]
  · intro α a b hbne
    cases a <;> simp [coalesce, hbne]

def c1StoredRow : CommentRow :=
  { id := 10, author_id := none, pull_request_id := some 5, review_id := none,
    review_thread_id := none, created_at := some "2024-01-01T00:00:00Z" }

def c1IncomingRow : CommentRow :=
  { id := 10, author_id := none, pull_request_id := none, review_id := some 7,
    review_thread_id := none, created_at := some "2024-02-02T00:00:00Z" }

/-- Witness for C1: the spec's concrete instance — save once with
pull_request_id=5, then again with pull_request_id null and review_id=7;
the single resulting row carries both parent links. -/
theorem comment_save_merges_parent_links_witness :
    c1StoredRow ∈ [c1StoredRow]
    ∧ c1IncomingRow.id = c1StoredRow.id
    ∧ ({ id := 10, author_id := none, pull_request_id := some 5, review_id := some 7,
         review_thread_id := none, created_at := some "2024-01-01T00:00:00Z" } : CommentRow)
        ∈ upsertComment [c1StoredRow] c1IncomingRow
    ∧ (upsertComment [c1StoredRow] c1IncomingRow).length = [c1StoredRow].length := by
  have h := comment_save_merges_parent_links [c1StoredRow] c1StoredRow c1IncomingRow
    (by decide) rfl
  exact ⟨by decide, rfl, h.1, h.2.1⟩

/-- C2: Author name is monotonically enriched and never regresses to null:
for a stored author row, saving the same login with a null name leaves the
row unchanged, and saving it with a non-null name sets the name to that
value regardless of the prior value. -/
theorem author_name_monotonic_enrichment (db : DB) (r : AuthorRow)
    (hmem : r ∈ db.authors) :
    r ∈ (saveAuthor db r.login none).authors
    ∧ (∀ n2, { r with name := some n2 } ∈ (saveAuthor db r.login (some n2)).authors) := by
  have hb : db.authors.any (fun x => x.login == r.login) = true :=
    List.any_eq_true.mpr ⟨r, hmem, by simp⟩
  constructor
  · unfold saveAuthor
    rw [if_pos hb]
    exact List.mem_map.mpr ⟨r, hmem, by simp⟩
  · intro n2
    unfold saveAuthor
    rw [if_pos hb]
    exact List.mem_map.mpr ⟨r, hmem, by simp⟩

def c2DB : DB := saveAuthor emptyDB "alice" (some "Alice Smith")

/-- Witness for C2: the author alice with name "Alice Smith" keeps the
name under a null re-save and takes "Alice Cooper" under a non-null
re-save. -/
theorem author_name_monotonic_enrichment_witness :
    (⟨1, "alice", some "Alice Smith"⟩ : AuthorRow) ∈ c2DB.authors
    ∧ (⟨1, "alice", some "Alice Smith"⟩ : AuthorRow) ∈ (saveAuthor c2DB "alice" none).authors
    ∧ (⟨1, "alice", some "Alice Cooper"⟩ : AuthorRow) ∈ (saveAuthor c2DB "alice" (some "Alice Cooper")).authors := by
  have h := author_name_monotonic_enrichment c2DB ⟨1, "alice", some "Alice Smith"⟩ (by decide)
  exact ⟨by decide, h.1, h.2 "Alice Cooper"⟩

/-- C3: PullRequest save has full-refresh semantics: re-saving a record
whose id is already stored leaves the incoming record as the stored row,
every row with that id equals the incoming record afterwards (no merge
with old values), and no new row is added. -/
theorem pull_request_save_full_refresh (rows : List PullRequestRow)
    (r p : PullRequestRow) (hmem : r ∈ rows) (hid : r.id = p.id) :
    p ∈ upsertPullRequest rows p
    ∧ (∀ r' ∈ upsertPullRequest rows p, r'.id = p.id → r' = p)
    ∧ (upsertPullRequest rows p).length = rows.length := by
  have hb : rows.any (fun x => x.id == p.id) = true :=
    List.any_eq_true.mpr ⟨r, hmem, by simp [hid]⟩
  have hupd : ∀ x : PullRequestRow, x.id = p.id →
      ({ x with
          author_id := p.author_id, title := p.title, state := p.state,
          created_at := p.created_at, closed_at := p.closed_at, merged_at := p.merged_at,
          additions := p.additions, deletions := p.deletions,
          author_association := p.author_association,
          head_repository_url := p.head_repository_url,
          is_cross_repository := p.is_cross_repository,
          merge_commit_ci_state := p.merge_commit_ci_state,
          api_total_comments_count := p.api_total_comments_count } : PullRequestRow) = p := by
    intro x hx
    cases x
    cases p
    simp_all
  refine ⟨?_, ?_, ?_⟩
  · unfold upsertPullRequest
    rw [if_pos hb]
    refine List.mem_map.mpr ⟨r, hmem, ?_⟩
    rw [if_pos (by simp [hid])]
    exact hupd r hid
  · intro r' hr' hrid
    unfold upsertPullRequest at hr'
    rw [if_pos hb] at hr'
    obtain ⟨x, hx, hfx⟩ := List.mem_map.mp hr'
    by_cases hxid : (x.id == p.id) = true
    · rw [if_pos hxid] at hfx
      rw [← hfx]
      exact hupd x (by simpa using hxid)
    · rw [if_neg hxid] at hfx
      subst hfx
      exact absurd hrid (by simpa using hxid)
  · simp [upsertPullRequest, hb]

def c3OldRow : PullRequestRow :=
  { id := 1, author_id := some 1, title := some "old title", state := some "OPEN",
    created_at := some "2024-01-01T00:00:00Z", closed_at := none, merged_at := none,
    additions := 1, deletions := 2, author_association := some "MEMBER",
    head_repository_url := none, is_cross_repository := 0,
    merge_commit_ci_state := none, api_total_comments_count := some 3 }

def c3NewRow : PullRequestRow :=
  { id := 1, author_id := none, title := some "new title", state := some "MERGED",
    created_at := some "2024-01-01T00:00:00Z", closed_at := some "2024-03-03T00:00:00Z",
    merged_at := some "2024-03-03T00:00:00Z", additions := 5, deletions := 6,
    author_association := some "CONTRIBUTOR", head_repository_url := some "https://x",
    is_cross_repository := 1, merge_commit_ci_state := some "SUCCESS",
    api_total_comments_count := some 9 }

/-- Witness for C3: re-saving pull request 1 with changed fields replaces
the stored row by the incoming record. -/
theorem pull_request_save_full_refresh_witness :
    c3OldRow ∈ [c3OldRow]
    ∧ c3OldRow.id = c3NewRow.id
    ∧ c3NewRow ∈ upsertPullRequest [c3OldRow] c3NewRow
    ∧ (upsertPullRequest [c3OldRow] c3NewRow).length = [c3OldRow].length := by
  have h := pull_request_save_full_refresh [c3OldRow] c3OldRow c3NewRow (by decide) rfl
  exact ⟨by decide, rfl, h.1, h.2.2⟩

/-- C4: Append-only entities are idempotent under re-save: for Commit,
Review, File, Label, AuthorPullRequest and LabelPullRequest, saving a
record whose declared unique key already exists (for the nullable key
components of commits and files, exists in the SQL sense: non-null and
equal) is a no-op, so the table is unchanged after the second save
regardless of the other field values of the second record. -/
theorem append_only_entities_idempotent :
    (∀ (rows : List CommitRow) (x y : CommitRow),
       sqlEq y.pull_request_id x.pull_request_id = true → sqlEq y.url x.url = true →
       insertCommit (insertCommit rows x) y = insertCommit rows x)
    ∧ (∀ (rows : List ReviewRow) (x y : ReviewRow), y.id = x.id →
       insertReview (insertReview rows x) y = insertReview rows x)
    ∧ (∀ (rows : List FileRow) (x y : FileRow),
       sqlEq y.pull_request_id x.pull_request_id = true → sqlEq y.path x.path = true →
       insertFile (insertFile rows x) y = insertFile rows x)
    ∧ (∀ (rows : List LabelRow) (x y : LabelRow), y.name = x.name →
       insertLabel (insertLabel rows x) y = insertLabel rows x)
    ∧ (∀ (rows : List AuthorPullRequestRow) (x y : AuthorPullRequestRow),
       y.author_id = x.author_id → y.pull_request_id = x.pull_request_id →
       insertAuthorPullRequest (insertAuthorPullRequest rows x) y = insertAuthorPullRequest rows x)
    ∧ (∀ (rows : List LabelPullRequestRow) (x y : LabelPullRequestRow),
       y.label_id = x.label_id → y.pull_request_id = x.pull_request_id →
       insertLabelPullRequest (insertLabelPullRequest rows x) y = insertLabelPullRequest rows x) := by
  refine ⟨?_, ?_, ?_, ?_, ?_, ?_⟩
  · intro rows x y h1 h2
    unfold insertCommit
    refine insertIfNew_second_noop _ rows x y ?_ ?_
    · simp only [Bool.and_eq_true]
      exact ⟨sqlEq_symm h1, sqlEq_symm h2⟩
    · intro r hr
      simp only [Bool.and_eq_true] at hr ⊢
      exact ⟨sqlEq_trans_right hr.1 h1, sqlEq_trans_right hr.2 h2⟩
  · intro rows x y h
    unfold insertReview
    refine insertIfNew_second_noop _ rows x y (by simp [h]) ?_
    intro r hr
    simp_all
  · intro rows x y h1 h2
    unfold insertFile
    refine insertIfNew_second_noop _ rows x y ?_ ?_
    · simp only [Bool.and_eq_true]
      exact ⟨sqlEq_symm h1, sqlEq_symm h2⟩
    · intro r hr
      simp only [Bool.and_eq_true] at hr ⊢
      exact ⟨sqlEq_trans_right hr.1 h1, sqlEq_trans_right hr.2 h2⟩
  · intro rows x y h
    unfold insertLabel
    refine insertIfNew_second_noop _ rows x y (by simp [h]) ?_
    intro r hr
    simp_all
  · intro rows x y h1 h2
    unfold insertAuthorPullRequest
    refine insertIfNew_second_noop _ rows x y (by simp [h1, h2]) ?_
    intro r hr
    simp_all
  · intro rows x y h1 h2
    unfold insertLabelPullRequest
    refine insertIfNew_second_noop _ rows x y (by simp [h1, h2]) ?_
    intro r hr
    simp_all

def c4CommitA : CommitRow := { pull_request_id := some 1, url := some "https://u", committed_at := some "d1" }

def c4CommitB : CommitRow := { pull_request_id := some 1, url := some "https://u", committed_at := some "d2" }

def c4ReviewA : ReviewRow := { id := 5, author_id := some 1, pull_request_id := some 2, created_at := some "d1" }

def c4ReviewB : ReviewRow := { id := 5, author_id := none, pull_request_id := some 9, created_at := some "d2" }

def c4FileA : FileRow := { pull_request_id := some 1, path := some "a.txt", change_type := some "ADDED", additions := some 1, deletions := some 0 }

def c4FileB : FileRow := { pull_request_id := some 1, path := some "a.txt", change_type := some "MODIFIED", additions := some 7, deletions := some 7 }

/-- Witness for C4: each of the six append-only entities, saved twice with
the same key but different remaining fields, keeps the first write. -/
theorem append_only_entities_idempotent_witness :
    sqlEq c4CommitB.pull_request_id c4CommitA.pull_request_id = true
    ∧ sqlEq c4CommitB.url c4CommitA.url = true
    ∧ insertCommit (insertCommit [] c4CommitA) c4CommitB = insertCommit [] c4CommitA
    ∧ insertReview (insertReview [] c4ReviewA) c4ReviewB = insertReview [] c4ReviewA
    ∧ insertFile (insertFile [] c4FileA) c4FileB = insertFile [] c4FileA
    ∧ insertLabel (insertLabel [] ⟨1, "clang"⟩) ⟨2, "clang"⟩ = insertLabel [] ⟨1, "clang"⟩
    ∧ insertAuthorPullRequest (insertAuthorPullRequest [] ⟨1, 2⟩) ⟨1, 2⟩ = insertAuthorPullRequest [] ⟨1, 2⟩
    ∧ insertLabelPullRequest (insertLabelPullRequest [] ⟨3, 4⟩) ⟨3, 4⟩ = insertLabelPullRequest [] ⟨3, 4⟩ := by
  have h := append_only_entities_idempotent
  exact ⟨by decide, by decide,
    h.1 [] c4CommitA c4CommitB (by decide) (by decide),
    h.2.1 [] c4ReviewA c4ReviewB rfl,
    h.2.2.1 [] c4FileA c4FileB (by decide) (by decide),
    h.2.2.2.1 [] ⟨1, "clang"⟩ ⟨2, "clang"⟩ rfl,
    h.2.2.2.2.1 [] ⟨1, 2⟩ ⟨1, 2⟩ rfl rfl,
    h.2.2.2.2.2 [] ⟨3, 4⟩ ⟨3, 4⟩ rfl rfl⟩

/-- C5: ReviewThread save returns the stored row's internal identifier on
both the fresh-insert path and the conflict path, and the loop body of
saveReviewThreads passes exactly that returned identifier to the nested
save of the thread's comments. -/
theorem review_thread_save_returns_id (db : DB) (node_id : String) (pr : Int) :
    (∃ i, (insertReviewThread db node_id pr).2 = some i
        ∧ ∃ r, r ∈ (insertReviewThread db node_id pr).1.review_threads
            ∧ r.id = i ∧ r.node_id = node_id)
    ∧ (∀ t : ThreadRecord, saveReviewThreadsLoop db [t] pr =
        saveComments (insertReviewThread db t.id pr).1 t.comments none none
          (insertReviewThread db t.id pr).2) := by
  constructor
  · by_cases h : db.review_threads.any (fun r => r.node_id == node_id) = true
    · have hsome : (db.review_threads.find? (fun r => r.node_id == node_id)).isSome := by
        obtain ⟨r, hr, hcr⟩ := List.any_eq_true.mp h
        exact List.find?_isSome.mpr ⟨r, hr, hcr⟩
      obtain ⟨r0, hf⟩ := Option.isSome_iff_exists.mp hsome
      have hr0mem := List.mem_of_find?_eq_some hf
      have hr0p : (r0.node_id == node_id) = true := by
        have := List.find?_some hf
        simpa using this
      refine ⟨r0.id, ?_, ?_⟩
      · unfold insertReviewThread
        rw [if_pos h]
        simp [hf]
      · refine ⟨{ r0 with node_id := node_id }, ?_, rfl, rfl⟩
        unfold insertReviewThread
        rw [if_pos h]
        exact List.mem_map.mpr ⟨r0, hr0mem, by simp [hr0p]⟩
    · refine ⟨db.nextThreadId, ?_, ?_⟩
      · unfold insertReviewThread
        rw [if_neg h]
      · refine ⟨{ id := db.nextThreadId, node_id := node_id, pull_request_id := some pr }, ?_, rfl, rfl⟩
        unfold insertReviewThread
        rw [if_neg h]
        simp
  · intro t
    show (match saveComments (insertReviewThread db t.id pr).1 t.comments none none
            (insertReviewThread db t.id pr).2 with
          | Except.error e => Except.error e
          | Except.ok db2 => saveReviewThreadsLoop db2 [] pr) = _
    cases hsc : saveComments (insertReviewThread db t.id pr).1 t.comments none none
        (insertReviewThread db t.id pr).2 with
    | error e => rfl
    | ok db2 => rfl

/-- C6 counterexample: with a pool of 2 credentials the run does not
survive until a third consecutive authorization-class failure — the first
failure leaves it running (on the second credential), and the second
failure already terminates it, so a third failure can never occur. -/
theorem credential_rotation_counterexample :
    ((handleTransportServerError
        { current_token_idx := 0, pool_size := 2, next_page_after := none, terminated := false }
        "Unauthorized").terminated = false)
    ∧ ((handleTransportServerError (handleTransportServerError
        { current_token_idx := 0, pool_size := 2, next_page_after := none, terminated := false }
        "Unauthorized") "Unauthorized").terminated = true) := by
  decide

/-- C6 amended: on an authorization/rate-limit class transport failure the
driver advances to the next credential and retries the same page (the
cursor is untouched); after k < n consecutive such failures with a pool of
n credentials the run is still alive on credential index k (with a pool of
2, the second attempt uses the second credential), and the n-th
consecutive failure — the second with a pool of 2 — exhausts the pool and
terminates the run. -/
theorem credential_rotation_pool_exhaustion (n k : Nat) (page : Option String) (err : String)
    (hn : 0 < n) (hk : k < n) (hauth : isAuthClassError err = true) :
    (fun s => handleTransportServerError s err)^[k]
        { current_token_idx := 0, pool_size := n, next_page_after := page, terminated := false }
      = { current_token_idx := k, pool_size := n, next_page_after := page, terminated := false }
    ∧ ((fun s => handleTransportServerError s err)^[n]
        { current_token_idx := 0, pool_size := n, next_page_after := page, terminated := false }).terminated
      = true := by
  have key : ∀ j, j < n → (fun s => handleTransportServerError s err)^[j]
      { current_token_idx := 0, pool_size := n, next_page_after := page, terminated := false }
      = { current_token_idx := j, pool_size := n, next_page_after := page, terminated := false } := by
    intro j
    induction j with
    | zero => intro _; rfl
    | succ m ih =>
      intro hj
      rw [Function.iterate_succ_apply', ih (by omega)]
      unfold handleTransportServerError
      rw [hauth]
      simp only [Bool.not_true, Bool.false_eq_true, if_false]
      rw [if_neg (by simp; omega)]
  obtain ⟨m, rfl⟩ : ∃ m, n = m + 1 := ⟨n - 1, by omega⟩
  refine ⟨key k hk, ?_⟩
  rw [Function.iterate_succ_apply', key m (by omega)]
  unfold handleTransportServerError
  rw [hauth]
  simp only [Bool.not_true, Bool.false_eq_true, if_false]
  rw [if_pos (by simp)]

/-- Witness for C6 amended: pool of 2, auth-class error "Unauthorized" —
after one failure the run is alive on the second credential with the same
page; after two it is terminated. -/
theorem credential_rotation_pool_exhaustion_witness :
    0 < 2 ∧ 1 < 2 ∧ isAuthClassError "Unauthorized" = true
    ∧ ((fun s => handleTransportServerError s "Unauthorized")^[1]
        { current_token_idx := 0, pool_size := 2, next_page_after := none, terminated := false }
      = { current_token_idx := 1, pool_size := 2, next_page_after := none, terminated := false })
    ∧ (((fun s => handleTransportServerError s "Unauthorized")^[2]
        { current_token_idx := 0, pool_size := 2, next_page_after := none, terminated := false }).terminated
      = true) := by
  have h := credential_rotation_pool_exhaustion 2 1 none "Unauthorized"
    (by decide) (by decide) (by decide)
  exact ⟨by decide, by decide, by decide, h.1, h.2⟩

/-- C7: Rate-governor cooldown: when the accumulated cost has reached the
budget and the 60-second window has not yet elapsed, the driver sleeps for
exactly the remaining seconds of the window (a positive duration, so the
next request is issued at the window's end, never earlier), and the new
state has the cost counter reset to zero and the window start set to the
clock time after the sleep. -/
theorem rate_governor_cooldown_blocks (g : GovState) (now : ℚ)
    (hcost : COST_PER_MINUTE ≤ g.current_cost) (hwin : now - g.start < 60) :
    (cooldownStep g now).1 = 60 - (now - g.start)
    ∧ 0 < (cooldownStep g now).1
    ∧ now + (cooldownStep g now).1 = g.start + 60
    ∧ (cooldownStep g now).2.current_cost = 0
    ∧ (cooldownStep g now).2.start = now + (cooldownStep g now).1 := by
  have hpos : (0 : ℚ) < 60 - (now - g.start) := by linarith
  have hstep : cooldownStep g now =
      (60 - (now - g.start),
       { current_cost := 0, start := now + (60 - (now - g.start)) }) := by
    unfold cooldownStep
    rw [if_pos hcost]
    simp only [if_pos hpos]
  rw [hstep]
  refine ⟨rfl, hpos, by ring, rfl, rfl⟩

/-- Witness for C7: cost 1900 (the budget) reached 30 seconds into the
window — the driver sleeps the remaining 30 seconds, resumes at second 60,
and resets the counter and window start. -/
theorem rate_governor_cooldown_blocks_witness :
    COST_PER_MINUTE ≤ (1900 : Int) ∧ (30 : ℚ) - 0 < 60
    ∧ ((cooldownStep { current_cost := 1900, start := 0 } 30).1 = 60 - (30 - 0)
      ∧ 0 < (cooldownStep { current_cost := 1900, start := 0 } 30).1
      ∧ 30 + (cooldownStep { current_cost := 1900, start := 0 } 30).1 = 0 + 60
      ∧ (cooldownStep { current_cost := 1900, start := 0 } 30).2.current_cost = 0
      ∧ (cooldownStep { current_cost := 1900, start := 0 } 30).2.start
          = 30 + (cooldownStep { current_cost := 1900, start := 0 } 30).1) := by
  exact ⟨by norm_num [COST_PER_MINUTE], by norm_num,
    rate_governor_cooldown_blocks { current_cost := 1900, start := 0 } 30
      (by norm_num [COST_PER_MINUTE]) (by norm_num)⟩

def c8PR : PullRequestRow :=
  { id := 1, author_id := none, title := some "t", state := some "OPEN",
    created_at := some "2024-01-01T00:00:00Z", closed_at := none, merged_at := none,
    additions := 0, deletions := 0, author_association := some "MEMBER",
    head_repository_url := none, is_cross_repository := 0,
    merge_commit_ci_state := none, api_total_comments_count := some 0 }

/-- A store holding pull request 1, so that comment parent links to it
satisfy the foreign-key constraint. -/
def c8DB : DB := { emptyDB with pull_requests := [c8PR] }

/-- C8: the code raises on a null fullDatabaseId. On a store where the
referenced pull request exists, a comment record whose optional author
object is absent saves fine (as does one whose author is present), and
absent or empty input lists are no-ops; but a record whose fullDatabaseId
is null makes saveComments (and a review record with null fullDatabaseId
makes saveReviews) raise a TypeError from int(None) instead of treating
the field as absent, even though the query text documents fullDatabaseId
as nullable. The last two conjuncts check the model's store constraints
against the schema: a null createdAt is an IntegrityError (NOT NULL on
comments.created_at), as is a parent link to a missing pull request
(foreign keys are ON) — neither is silently accepted. -/
theorem save_comments_null_fullDatabaseId_raises :
    (saveComments c8DB
        (some [{ fullDatabaseId := none, author := none, createdAt := some "2024-01-01T00:00:00Z" }])
        (some 1) none none
      = Except.error "TypeError: int() argument cannot be NoneType (fullDatabaseId is null)")
    ∧ (∃ db1, saveComments c8DB
        (some [{ fullDatabaseId := some 11, author := none, createdAt := some "2024-01-01T00:00:00Z" }])
        (some 1) none none = Except.ok db1)
    ∧ (∃ db2, saveComments c8DB
        (some [{ fullDatabaseId := some 12, author := some { login := some "alice", name := none },
                 createdAt := some "2024-01-02T00:00:00Z" }])
        (some 1) none none = Except.ok db2)
    ∧ saveComments c8DB none (some 1) none none = Except.ok c8DB
    ∧ saveComments c8DB (some []) (some 1) none none = Except.ok c8DB
    ∧ saveReviews c8DB none 1 = Except.ok c8DB
    ∧ (saveReviews c8DB
        (some [{ fullDatabaseId := none, author := none, createdAt := some "2024-01-01T00:00:00Z",
                 comments := none }]) 1
      = Except.error "TypeError: int() argument cannot be NoneType (review fullDatabaseId is null)")
    ∧ saveReviewThreads c8DB none 1 = Except.ok c8DB
    ∧ (saveComments c8DB
        (some [{ fullDatabaseId := some 13, author := none, createdAt := none }])
        (some 1) none none
      = Except.error "sqlite3.IntegrityError: NOT NULL constraint failed: comments.created_at")
    ∧ (saveComments emptyDB
        (some [{ fullDatabaseId := some 14, author := none, createdAt := some "2024-01-01T00:00:00Z" }])
        (some 1) none none
      = Except.error "sqlite3.IntegrityError: FOREIGN KEY constraint failed") := by
  exact ⟨rfl, ⟨_, rfl⟩, ⟨_, rfl⟩, rfl, rfl, rfl, rfl, rfl, rfl, rfl⟩

/-! Deletion-policy helper lemmas. -/

theorem map_proj_of_pointwise {α β : Type} (g : α → α) (f : α → β) (l : List α)
    (h : ∀ a, f (g a) = f a) : (l.map g).map f = l.map f := by
  induction l with
  | nil => rfl
  | cons x xs ih => simp [h, ih]

theorem forall_mem_map_of_forall {α : Type} (g : α → α) (l : List α) (P : α → Prop)
    (h : ∀ a, P (g a)) : ∀ r ∈ l.map g, P r := by
  intro r hr
  obtain ⟨x, _, rfl⟩ := List.mem_map.mp hr
  exact h x

/-- C9: Deletion policy asymmetry: deleting an author keeps every
dependent pull request, review and comment row (same ids, in order) and
nulls its author link on them; deleting a pull request removes exactly its
dependent file and join-table rows while commits, reviews and review
threads all survive (same ids resp. urls, in order) with their
pull-request link nulled. -/
theorem deletion_policy_asymmetry (db : DB) (aid : Nat) (pid : Int) :
    ((deleteAuthor db aid).pull_requests.map (fun r => r.id) = db.pull_requests.map (fun r => r.id)
      ∧ ∀ r ∈ (deleteAuthor db aid).pull_requests, r.author_id ≠ some aid)
    ∧ ((deleteAuthor db aid).reviews.map (fun r => r.id) = db.reviews.map (fun r => r.id)
      ∧ ∀ r ∈ (deleteAuthor db aid).reviews, r.author_id ≠ some aid)
    ∧ ((deleteAuthor db aid).comments.map (fun r => r.id) = db.comments.map (fun r => r.id)
      ∧ ∀ r ∈ (deleteAuthor db aid).comments, r.author_id ≠ some aid)
    ∧ (∀ f ∈ (deletePullRequest db pid).files, f.pull_request_id ≠ some pid)
    ∧ (∀ f ∈ db.files, f.pull_request_id ≠ some pid → f ∈ (deletePullRequest db pid).files)
    ∧ (∀ j ∈ (deletePullRequest db pid).author_pull_request, j.pull_request_id ≠ pid)
    ∧ (∀ j ∈ (deletePullRequest db pid).label_pull_request, j.pull_request_id ≠ pid)
    ∧ ((deletePullRequest db pid).commits.map (fun r => r.url) = db.commits.map (fun r => r.url)
      ∧ ∀ r ∈ (deletePullRequest db pid).commits, r.pull_request_id ≠ some pid)
    ∧ ((deletePullRequest db pid).reviews.map (fun r => r.id) = db.reviews.map (fun r => r.id)
      ∧ ∀ r ∈ (deletePullRequest db pid).reviews, r.pull_request_id ≠ some pid)
    ∧ ((deletePullRequest db pid).review_threads.map (fun r => r.id) = db.review_threads.map (fun r => r.id)
      ∧ ∀ r ∈ (deletePullRequest db pid).review_threads, r.pull_request_id ≠ some pid) := by
  refine ⟨⟨?_, ?_⟩, ⟨?_, ?_⟩, ⟨?_, ?_⟩, ?_, ?_, ?_, ?_, ⟨?_, ?_⟩, ⟨?_, ?_⟩, ⟨?_, ?_⟩⟩
  · exact map_proj_of_pointwise _ _ _ (fun a => by by_cases hx : a.author_id = some aid <;> simp [hx])
  · exact forall_mem_map_of_forall _ _ _ (fun a => by by_cases hx : a.author_id = some aid <;> simp [hx])
  · exact map_proj_of_pointwise _ _ _ (fun a => by by_cases hx : a.author_id = some aid <;> simp [hx])
  · exact forall_mem_map_of_forall _ _ _ (fun a => by by_cases hx : a.author_id = some aid <;> simp [hx])
  · exact map_proj_of_pointwise _ _ _ (fun a => by by_cases hx : a.author_id = some aid <;> simp [hx])
  · exact forall_mem_map_of_forall _ _ _ (fun a => by by_cases hx : a.author_id = some aid <;> simp [hx])
  · intro f hf
    have := (List.mem_filter.mp hf).2
    simpa using this
  · intro f hf hne
    exact List.mem_filter.mpr ⟨hf, by simpa using hne⟩
  · intro j hj
    have := (List.mem_filter.mp hj).2
    simpa using this
  · intro j hj
    have := (List.mem_filter.mp hj).2
    simpa using this
  · exact map_proj_of_pointwise _ _ _ (fun a => by by_cases hx : a.pull_request_id = some pid <;> simp [hx])
  · exact forall_mem_map_of_forall _ _ _ (fun a => by by_cases hx : a.pull_request_id = some pid <;> simp [hx])
  · exact map_proj_of_pointwise _ _ _ (fun a => by by_cases hx : a.pull_request_id = some pid <;> simp [hx])
  · exact forall_mem_map_of_forall _ _ _ (fun a => by by_cases hx : a.pull_request_id = some pid <;> simp [hx])
  · exact map_proj_of_pointwise _ _ _ (fun a => by by_cases hx : a.pull_request_id = some pid <;> simp [hx])
  · exact forall_mem_map_of_forall _ _ _ (fun a => by by_cases hx : a.pull_request_id = some pid <;> simp [hx])

def c9DB : DB :=
  { emptyDB with
      authors := [⟨1, "alice", none⟩],
      pull_requests := [⟨7, some 1, some "t", some "OPEN", some "d", none, none, 0, 0,
        some "MEMBER", none, 0, none, some 0⟩],
      commits := [⟨some 2, some "https://u", some "d"⟩],
      reviews := [⟨4, some 1, some 2, some "d"⟩],
      review_threads := [⟨1, "PRRT_n", some 2⟩],
      comments := [⟨9, some 1, some 2, none, none, some "d"⟩],
      files := [⟨some 2, some "a.txt", none, none, none⟩, ⟨some 3, some "b.txt", none, none, none⟩],
      author_pull_request := [⟨1, 2⟩],
      label_pull_request := [⟨1, 2⟩] }

/-- Witness for C9: on a concrete store, deleting author 1 keeps pull
request 7 (author link nulled), and deleting pull request 2 keeps the
commits (link nulled) and keeps the file of pull request 3 while its own
file rows are gone. -/
theorem deletion_policy_asymmetry_witness :
    ((deleteAuthor c9DB 1).pull_requests.map (fun r => r.id) = c9DB.pull_requests.map (fun r => r.id))
    ∧ ((⟨7, none, some "t", some "OPEN", some "d", none, none, 0, 0,
        some "MEMBER", none, 0, none, some 0⟩ : PullRequestRow).author_id ≠ some 1)
    ∧ ((⟨some 3, some "b.txt", none, none, none⟩ : FileRow) ∈ (deletePullRequest c9DB 2).files)
    ∧ ((deletePullRequest c9DB 2).commits.map (fun r => r.url) = c9DB.commits.map (fun r => r.url)) := by
  have h := deletion_policy_asymmetry c9DB 1 2
  exact ⟨h.1.1,
    h.1.2 ⟨7, none, some "t", some "OPEN", some "d", none, none, 0, 0,
      some "MEMBER", none, 0, none, some 0⟩ (by decide),
    h.2.2.2.2.1 ⟨some 3, some "b.txt", none, none, none⟩ (by decide) (by decide),
    h.2.2.2.2.2.2.2.1.1⟩

/-! LIKE-matching helper lemmas. -/

theorem likeMatch_of_asciiCaseEqL :
    ∀ (p s : List Char), asciiCaseEqL p s = true → likeMatch p s = true := by
  intro p
  induction p with
  | nil =>
    intro s h
    cases s with
    | nil => rfl
    | cons b bs => simp [asciiCaseEqL] at h
  | cons a as ih =>
    intro s h
    cases s with
    | nil => simp [asciiCaseEqL] at h
    | cons b bs =>
      have h12 : (asciiLower a == asciiLower b) = true ∧ asciiCaseEqL as bs = true := by
        simpa [asciiCaseEqL] using h
      have h3 := ih bs h12.2
      by_cases ha : a = '%'
      · subst ha
        have hmem : bs ∈ (b :: bs).tails := (List.mem_tails bs (b :: bs)).mpr (List.suffix_cons b bs)
        simp only [likeMatch, if_pos rfl]
        exact List.any_eq_true.mpr ⟨bs, hmem, h3⟩
      · by_cases ha2 : a = '_'
        · subst ha2
          simp [likeMatch, ha, h3]
        · simp [likeMatch, ha, ha2, h12.1, h3]

theorem likeMatch_underscore (p s : List Char) (c : Char)
    (h : likeMatch p s = true) : likeMatch ('_' :: p) (c :: s) = true := by
  simp [likeMatch, h]

theorem likeMatch_percent (p s extra : List Char)
    (h : likeMatch p s = true) : likeMatch ('%' :: p) (extra ++ s) = true := by
  simp only [likeMatch, if_pos rfl]
  exact List.any_eq_true.mpr
    ⟨s, (List.mem_tails s (extra ++ s)).mpr (List.suffix_append extra s), h⟩

theorem foldl_minByKey_const {α : Type} (key : α → String) (r : α) :
    ∀ (rs : List α) (acc : α), acc = r → (∀ x ∈ rs, x = r) →
      rs.foldl (fun acc x => if strLtB (key x) (key acc) then x else acc) acc = r := by
  intro rs
  induction rs with
  | nil => intro acc hacc _; exact hacc
  | cons x xs ih =>
    intro acc hacc hall
    rw [List.foldl_cons]
    apply ih
    · rw [hacc, hall x (List.mem_cons_self x xs)]
      exact ite_self r
    · intro y hy
      exact hall y (List.mem_cons_of_mem x hy)

theorem minByKey_all_eq {α : Type} (key : α → String) (l : List α) (r : α)
    (hmem : r ∈ l) (hall : ∀ x ∈ l, x = r) : minByKey key l = some r := by
  cases l with
  | nil => cases hmem
  | cons r0 rs =>
    unfold minByKey
    exact congrArg some (foldl_minByKey_const key r rs r0
      (hall r0 (List.mem_cons_self r0 rs))
      (fun y hy => hall y (List.mem_cons_of_mem r0 hy)))

theorem foldl_minByKey_mem {α : Type} (key : α → String) :
    ∀ (rs : List α) (acc : α),
      rs.foldl (fun acc x => if strLtB (key x) (key acc) then x else acc) acc = acc
      ∨ rs.foldl (fun acc x => if strLtB (key x) (key acc) then x else acc) acc ∈ rs := by
  intro rs
  induction rs with
  | nil => intro acc; left; rfl
  | cons x xs ih =>
    intro acc
    rw [List.foldl_cons]
    rcases ih (if strLtB (key x) (key acc) then x else acc) with h | h
    · rw [h]
      by_cases hc : strLtB (key x) (key acc) = true
      · right
        rw [if_pos hc]
        exact List.mem_cons_self x xs
      · left
        rw [if_neg hc]
    · right
      exact List.mem_cons_of_mem x h

theorem minByKey_mem {α : Type} (key : α → String) (l : List α) (r0 : α)
    (h : minByKey key l = some r0) : r0 ∈ l := by
  cases l with
  | nil => cases h
  | cons x xs =>
    unfold minByKey at h
    have h' := Option.some.inj h
    rcases foldl_minByKey_mem key xs x with h2 | h2
    · rw [← h', h2]
      exact List.mem_cons_self x xs
    · rw [← h']
      exact List.mem_cons_of_mem x h2

/-- C10 counterexample: UNIQUE(login) is case-sensitive, so "alice" (id 1)
and "Alice" (id 2) can both be stored; the looked-up string "alice" is
exactly (hence case-insensitively) equal to the login of the stored row
with id 1, yet the lookup scans the login index in BINARY order, reaches
"Alice" first, and returns id 2 — so looking up a string equal (even
byte-for-byte, a fortiori up to ASCII case) to a stored login does not in
general return that row's id. -/
theorem like_lookup_counterexample :
    ((⟨1, "alice", none⟩ : AuthorRow)
        ∈ (saveAuthor (saveAuthor emptyDB "alice" none) "Alice" none).authors)
    ∧ asciiCaseEq "alice" "alice" = true
    ∧ getAuthorIDByLogin (saveAuthor (saveAuthor emptyDB "alice" none) "Alice" none) "alice"
        = some 2
    ∧ some (2 : Nat) ≠ some 1 := by
  decide

/-- C10 amended: lookup by login or label name goes through SQL LIKE with
the looked-up string as the pattern: ASCII case-insensitive, `_` matching
any single character and `%` any character sequence; it is answered by a
BINARY-order scan of the UNIQUE index, so it returns the id of the
LIKE-matching stored row whose login (resp. name) is smallest in byte
order — in particular, when the matching row is unique (e.g. a unique
stored login case-equal to the looked-up string), that row's id; and any
id it returns is the id of some stored row whose key LIKE-matches the
looked-up string. -/
theorem like_lookup_first_match :
    (∀ (db : DB) (s : String) (r : AuthorRow), r ∈ db.authors →
       asciiCaseEq s r.login = true →
       (∀ r' ∈ db.authors, likeMatch s.toList r'.login.toList = true → r' = r) →
       getAuthorIDByLogin db s = some r.id)
    ∧ (∀ (db : DB) (s : String) (l : LabelRow), l ∈ db.labels →
       asciiCaseEq s l.name = true →
       (∀ l' ∈ db.labels, likeMatch s.toList l'.name.toList = true → l' = l) →
       getLabelIDByName db s = some l.id)
    ∧ (∀ (db : DB) (s : String) (i : Nat), getAuthorIDByLogin db s = some i →
       ∃ r, r ∈ db.authors ∧ likeMatch s.toList r.login.toList = true ∧ r.id = i)
    ∧ (∀ (db : DB) (s : String) (i : Nat), getLabelIDByName db s = some i →
       ∃ l, l ∈ db.labels ∧ likeMatch s.toList l.name.toList = true ∧ l.id = i)
    ∧ (∀ (p s : List Char) (c : Char), likeMatch p s = true →
       likeMatch ('_' :: p) (c :: s) = true)
    ∧ (∀ (p s extra : List Char), likeMatch p s = true →
       likeMatch ('%' :: p) (extra ++ s) = true) := by
  refine ⟨?_, ?_, ?_, ?_, likeMatch_underscore, ?_⟩
  · intro db s r hmem hcase huniq
    have hm : likeMatch s.toList r.login.toList = true := likeMatch_of_asciiCaseEqL _ _ hcase
    have hrl : r ∈ db.authors.filter (fun x => likeMatch s.toList x.login.toList) :=
      List.mem_filter.mpr ⟨hmem, hm⟩
    have hall : ∀ x ∈ db.authors.filter (fun x => likeMatch s.toList x.login.toList), x = r := by
      intro x hx
      have hx2 := List.mem_filter.mp hx
      exact huniq x hx2.1 hx2.2
    simp only [getAuthorIDByLogin]
    rw [minByKey_all_eq (fun x => x.login) _ r hrl hall]
    rfl
  · intro db s l hmem hcase huniq
    have hm : likeMatch s.toList l.name.toList = true := likeMatch_of_asciiCaseEqL _ _ hcase
    have hll : l ∈ db.labels.filter (fun x => likeMatch s.toList x.name.toList) :=
      List.mem_filter.mpr ⟨hmem, hm⟩
    have hall : ∀ x ∈ db.labels.filter (fun x => likeMatch s.toList x.name.toList), x = l := by
      intro x hx
      have hx2 := List.mem_filter.mp hx
      exact huniq x hx2.1 hx2.2
    simp only [getLabelIDByName]
    rw [minByKey_all_eq (fun x => x.name) _ l hll hall]
    rfl
  · intro db s i h
    simp only [getAuthorIDByLogin] at h
    cases hf : minByKey (fun r => r.login)
        (db.authors.filter (fun r => likeMatch s.toList r.login.toList)) with
    | none => rw [hf] at h; simp at h
    | some r0 =>
      rw [hf] at h
      have hmf := List.mem_filter.mp (minByKey_mem _ _ _ hf)
      exact ⟨r0, hmf.1, hmf.2, by simpa using h⟩
  · intro db s i h
    simp only [getLabelIDByName] at h
    cases hf : minByKey (fun r => r.name)
        (db.labels.filter (fun r => likeMatch s.toList r.name.toList)) with
    | none => rw [hf] at h; simp at h
    | some l0 =>
      rw [hf] at h
      have hmf := List.mem_filter.mp (minByKey_mem _ _ _ hf)
      exact ⟨l0, hmf.1, hmf.2, by simpa using h⟩
  · intro p s extra h
    exact likeMatch_percent p s extra h

def c10DB : DB :=
  { emptyDB with authors := [⟨1, "alice", none⟩], labels := [⟨1, "clang"⟩] }

/-- Witness for C10 amended: with unique stored rows, the case-variant
lookups "ALICE" and "cLaNg" resolve to the stored ids, the returned id
belongs to a matching stored row, and the wildcards match. -/
theorem like_lookup_first_match_witness :
    asciiCaseEq "ALICE" "alice" = true
    ∧ getAuthorIDByLogin c10DB "ALICE" = some 1
    ∧ getLabelIDByName c10DB "cLaNg" = some 1
    ∧ (∃ r, r ∈ c10DB.authors ∧ likeMatch "ALICE".toList r.login.toList = true ∧ r.id = 1)
    ∧ likeMatch ('_' :: []) ('z' :: []) = true
    ∧ likeMatch ('%' :: []) (['x', 'y'] ++ []) = true := by
  have h := like_lookup_first_match
  exact ⟨by decide,
    h.1 c10DB "ALICE" ⟨1, "alice", none⟩ (by decide) (by decide) (by decide),
    h.2.1 c10DB "cLaNg" ⟨1, "clang"⟩ (by decide) (by decide) (by decide),
    h.2.2.1 c10DB "ALICE" 1 (by decide),
    h.2.2.2.2.1 [] [] 'z' rfl,
    h.2.2.2.2.2 [] [] ['x', 'y'] rfl⟩

end Scraper
